import Mathlib

/-!
Verification of the MEXC 5-minute volume-spike scanner (Mexcnewbot.py).

The definitions below are a shallow embedding of the scanner's pure logic:

* symbol filtering (`filter_stock_symbols`, `check_symbol_conditions`),
* universe refresh (`load_and_filter_symbols`),
* the spike predicate and the derived percentage formulas
  (`spike_condition`, `volume_change_pct`, `price_change_pct`),
* the per-symbol scan step with alert history, dedup store and delivery
  outcomes (`process_symbol`, `process_symbols`),
* the blacklist command (`add_to_blacklist`),
* the 5-minute bucket key (`current_5min`) and the dedup sweep
  (`sweep_old_alerts`),
* the scanner start/loop control decisions (`volume_spike_scanner_init`,
  `tick_action`).

Network calls are represented by their returned data (an `Option KlineData`
per symbol, a list of listed symbols, a delivery outcome per send attempt);
machine floats carrying prices and percentages are modelled as rationals,
volumes as naturals (the code truncates them with `int(float(..))`).
-/

/-- 24h-volume ceiling for a symbol to be tracked (source constant
`DAILY_VOLUME_LIMIT = 500_000`). -/
def DAILY_VOLUME_LIMIT : ℚ := 500000

/-- Threshold on the previous 5-minute volume (source constant
`MIN_PREV_VOLUME = 1000`). -/
def MIN_PREV_VOLUME : ℕ := 1000

/-- Threshold on the current 5-minute volume (source constant
`MIN_CURRENT_VOLUME = 4000`). -/
def MIN_CURRENT_VOLUME : ℕ := 4000

/-- Lower price bound (source constant `MIN_PRICE = 0.0001`). -/
def MIN_PRICE : ℚ := 1 / 10000

/-- Upper price bound (source constant `MAX_PRICE = 100`). -/
def MAX_PRICE : ℚ := 100

/-- Keywords marking tokenized-stock style symbols (source list
`STOCK_KEYWORDS`). -/
def STOCK_KEYWORDS : List String :=
  ["STOCK", "ETF", "SHARES", "INDEX", "FUND", "BASKET", "TOKENIZED"]

/-- Known stock/ETF base symbols (source set `STOCK_SYMBOLS`). -/
def STOCK_SYMBOLS : List String :=
  ["AAPL", "GOOGL", "AMZN", "MSFT", "TSLA", "META", "NVDA", "NFLX",
   "AMD", "INTC", "IBM", "ORCL", "CSCO", "ADBE", "PYPL", "CRM",
   "SPY", "QQQ", "DIA", "IWM", "VOO", "IVV", "VTI", "VUG",
   "MSTR", "COIN", "RIOT", "MAR", "HUT", "BITF", "CLSK"]

/-- `leadsList n h` is true when the character list `n` starts the list `h`
(used to embed Python substring search). -/
def leadsList : List Char → List Char → Bool
  | [], _ => true
  | _ :: _, [] => false
  | a :: as, b :: bs => a == b && leadsList as bs

/-- `containsSub n h` is true when `n` occurs as a contiguous run inside `h`
(Python `n in h` on strings). -/
def containsSub (needle : List Char) : List Char → Bool
  | [] => needle.isEmpty
  | c :: t => leadsList needle (c :: t) || containsSub needle t

/-- Python `needle in hay` on strings. -/
def strContains (hay needle : String) : Bool :=
  containsSub needle.data hay.data

/-- Python `s.upper()` (character-wise upper-casing). -/
def str_upper (s : String) : String :=
  ⟨s.data.map Char.toUpper⟩

/-- Python `s.replace("USDT", "")`: delete every occurrence of `USDT`,
scanning left to right. -/
def stripUSDT : List Char → List Char
  | 'U' :: 'S' :: 'D' :: 'T' :: rest => stripUSDT rest
  | c :: rest => c :: stripUSDT rest
  | [] => []

/-- `clean_symbol = symbol.replace("USDT", "")` from the source. -/
def clean_symbol (s : String) : String :=
  ⟨stripUSDT s.data⟩

/-- Embeds `filter_stock_symbols`: drop symbols whose cleaned name is a known
stock, that contain a stock keyword, or whose cleaned name contains a digit. -/
def filter_stock_symbols (symbols : List String) : List String :=
  symbols.filter (fun s =>
    !(STOCK_SYMBOLS.contains (clean_symbol s))
    && !(STOCK_KEYWORDS.any (fun k => strContains (str_upper s) k))
    && !((clean_symbol s).data.any Char.isDigit))

/-- The pair of consecutive 5-minute candles returned by `get_5m_kline_data`:
volumes are truncated to integers by the source, prices stay fractional. -/
structure KlineData where
  prev_volume : ℕ
  curr_volume : ℕ
  prev_price : ℚ
  curr_price : ℚ
deriving DecidableEq, Repr

/-- Embeds `check_symbol_conditions`: the cascade of blacklist, stock-symbol,
keyword, digit, daily-volume and price-band checks.  The two per-symbol
network fetches appear as their results: `daily_volume` (what `get_1d_volume`
returned) and `kline` (`none` when `get_5m_kline_data` produced no data, in
which case the source skips the price-band check entirely). -/
def check_symbol_conditions (blacklist : Finset String) (symbol : String)
    (daily_volume : ℚ) (kline : Option KlineData) : Bool :=
  if symbol ∈ blacklist then false
  else if STOCK_SYMBOLS.contains (clean_symbol symbol) then false
  else if STOCK_KEYWORDS.any (fun k => strContains (str_upper symbol) k) then false
  else if (clean_symbol symbol).data.any Char.isDigit then false
  else if DAILY_VOLUME_LIMIT < daily_volume then false
  else
    match kline with
    | some d =>
      if d.curr_price < MIN_PRICE then false
      else if MAX_PRICE < d.curr_price then false
      else true
    | none => true

/-- The spike test of scanner line 536, with the two volume thresholds passed
as the named parameters the spec calls configuration (the source instantiates
them with the constants `MIN_PREV_VOLUME` and `MIN_CURRENT_VOLUME`):
`prev_vol < minPrev and curr_vol > minCurr`. -/
def spike_condition (minPrev minCurr prev_vol curr_vol : ℕ) : Bool :=
  decide (prev_vol < minPrev) && decide (minCurr < curr_vol)

/-- `volume_change_pct = ((curr_vol - prev_vol) / max(prev_vol, 1)) * 100`
from scanner line 543. -/
def volume_change_pct (prev_vol curr_vol : ℕ) : ℚ :=
  (((curr_vol : ℚ) - (prev_vol : ℚ)) / max (prev_vol : ℚ) 1) * 100

/-- `price_change_pct`: `((curr - prev) / prev) * 100` when `prev > 0`,
otherwise `0` (scanner lines 544-547). -/
def price_change_pct (prev_price curr_price : ℚ) : ℚ :=
  if 0 < prev_price then ((curr_price - prev_price) / prev_price) * 100 else 0

/-- Dedup key: the source builds the string `f"{symbol}_{current_5min}"`;
since tracked symbols contain no underscore and the bucket part is the digit
string of `current_5min`, that string is in bijection with this pair of the
symbol and the bucket-key digit list. -/
abbrev AlertKey : Type := String × List ℕ

/-- First-match lookup in the dedup store (Python `alert_id in sent_alerts` /
`sent_alerts[alert_id]`); insertion conses at the front, so the first match is
the most recent value. -/
def lookupSent (k : AlertKey) : List (AlertKey × ℕ) → Option ℕ
  | [] => none
  | (k', v) :: rest => if k = k' then some v else lookupSent k rest

/-- The dedup query inlined at scanner line 539: emission is allowed exactly
when no entry for this `(symbol, bucket)` pair is in `sent_alerts`. -/
def shouldEmitDedup (sent : List (AlertKey × ℕ)) (k : AlertKey) : Bool :=
  (lookupSent k sent).isNone

/-- `sent_alerts[alert_id] = time.time()` (scanner lines 599 and 618). -/
def record_emission (k : AlertKey) (t : ℕ) (sent : List (AlertKey × ℕ)) :
    List (AlertKey × ℕ) :=
  (k, t) :: sent

/-- The per-tick sweep of scanner lines 627-630: drop every entry whose
recorded timestamp is more than 7200 seconds old. -/
def sweep_old_alerts (now : ℕ) (sent : List (AlertKey × ℕ)) :
    List (AlertKey × ℕ) :=
  sent.filter (fun kv => !(decide (7200 < now - kv.2)))

/-- One stored alert of `alert_history` (`save_alert_to_history`). -/
structure Alert where
  symbol : String
  prev_volume : ℕ
  curr_volume : ℕ
  prev_price : ℚ
  curr_price : ℚ
  volume_change_pct : ℚ
  price_change_pct : ℚ
  created_at : ℕ
deriving DecidableEq, Repr

/-- `save_alert_to_history`: append and keep only the last 1000 entries. -/
def save_alert_to_history (hist : List Alert) (a : Alert) : List Alert :=
  let h := hist ++ [a]
  if 1000 < h.length then h.drop (h.length - 1000) else h

/-- The module-level mutable state of the scanner: `tracked_symbols`,
`sent_alerts`, `blacklist`, `paused_alerts`, `alert_history`, plus
`delivered`, the log of messages successfully handed to the notification
sink (the observable effect of the
`send_message` calls). -/
structure ScanState where
  tracked : Finset String
  sent_alerts : List (AlertKey × ℕ)
  blacklist : Finset String
  paused_alerts : Finset String
  alert_history : List Alert
  delivered : List AlertKey
deriving DecidableEq

/-- Outcome of the alert-delivery attempt of scanner lines 581-620: the
primary `send_message` succeeds, or it raises and the simplified fallback
`send_message` succeeds, or both raise. -/
inductive DeliveryOutcome : Type
  | delivered
  | fallbackDelivered
  | failed
deriving DecidableEq, Repr

/-- The body of the per-symbol loop of `volume_spike_scanner`
(lines 520-624): skip paused symbols, skip when the kline fetch returned no
data, test the spike condition, dedup on `(symbol, bucket)`, compute the
percentages, record the alert to history *before* the send attempt, then
update `sent_alerts` only when the primary or the fallback delivery
succeeded; any exception leaves the remaining state unchanged and the loop
moves on.  The history write is modelled here as succeeding, which is what
the surrounding code assumes; the as-run behavior of the source's
`save_alert_to_history` (which always raises, see
`save_alert_to_history_run`) is modelled by `process_symbol_run` below. -/
def process_symbol (minPrev minCurr : ℕ) (now : ℕ) (bucket : List ℕ)
    (st : ScanState) (symbol : String) (kline : Option KlineData)
    (outcome : DeliveryOutcome) : ScanState :=
  if symbol ∈ st.paused_alerts then st
  else
    match kline with
    | none => st
    | some d =>
      if spike_condition minPrev minCurr d.prev_volume d.curr_volume then
        let alert_id : AlertKey := (symbol, bucket)
        if (lookupSent alert_id st.sent_alerts).isSome then st
        else
          let vpct := volume_change_pct d.prev_volume d.curr_volume
          let ppct := price_change_pct d.prev_price d.curr_price
          let hist := save_alert_to_history st.alert_history
            ⟨symbol, d.prev_volume, d.curr_volume, d.prev_price, d.curr_price,
             vpct, ppct, now⟩
          match outcome with
          | .delivered =>
            { st with alert_history := hist,
                      delivered := st.delivered ++ [alert_id],
                      sent_alerts := record_emission alert_id now st.sent_alerts }
          | .fallbackDelivered =>
            { st with alert_history := hist,
                      delivered := st.delivered ++ [alert_id],
                      sent_alerts := record_emission alert_id now st.sent_alerts }
          | .failed =>
            { st with alert_history := hist }
      else st

/-- A full pass over the snapshot `symbols_list` of one tick: each entry
carries the symbol, the kline data its fetch returned, and the delivery
outcome its send attempt would have. -/
def process_symbols (minPrev minCurr : ℕ) (now : ℕ) (bucket : List ℕ)
    (st : ScanState) :
    List (String × Option KlineData × DeliveryOutcome) → ScanState
  | [] => st
  | (s, kl, oc) :: rest =>
    process_symbols minPrev minCurr now bucket
      (process_symbol minPrev minCurr now bucket st s kl oc) rest

/-- The as-run behavior of the source's `save_alert_to_history`.  Its body
ends with the assignment `alert_history = alert_history[-1000:]` but the
function has no `global alert_history` declaration (unlike
`load_data_from_db`, which declares one), so Python compiles `alert_history`
as a local variable of the function; the earlier
`alert_history.append(alert)` then references that local before any
assignment has run and raises `UnboundLocalError` on every call, before any
mutation happens.  The intended computation, had the declaration been
present, is `save_alert_to_history`. -/
def save_alert_to_history_run (_hist : List Alert) (_a : Alert) :
    Except String (List Alert) :=
  Except.error "UnboundLocalError: alert_history referenced before assignment"

/-- The per-symbol loop body with the history write taken as the source runs
it: reaching the emission branch calls `save_alert_to_history`, whose
`UnboundLocalError` is caught by the per-symbol `except` of line 622, so the
iteration continues with every piece of scanner state unchanged — the send
is never attempted and nothing is recorded. -/
def process_symbol_run (minPrev minCurr : ℕ) (now : ℕ) (bucket : List ℕ)
    (st : ScanState) (symbol : String) (kline : Option KlineData)
    (outcome : DeliveryOutcome) : ScanState :=
  if symbol ∈ st.paused_alerts then st
  else
    match kline with
    | none => st
    | some d =>
      if spike_condition minPrev minCurr d.prev_volume d.curr_volume then
        let alert_id : AlertKey := (symbol, bucket)
        if (lookupSent alert_id st.sent_alerts).isSome then st
        else
          let vpct := volume_change_pct d.prev_volume d.curr_volume
          let ppct := price_change_pct d.prev_price d.curr_price
          match save_alert_to_history_run st.alert_history
            ⟨symbol, d.prev_volume, d.curr_volume, d.prev_price, d.curr_price,
             vpct, ppct, now⟩ with
          | Except.error _ => st
          | Except.ok hist =>
            match outcome with
            | .delivered =>
              { st with alert_history := hist,
                        delivered := st.delivered ++ [alert_id],
                        sent_alerts := record_emission alert_id now st.sent_alerts }
            | .fallbackDelivered =>
              { st with alert_history := hist,
                        delivered := st.delivered ++ [alert_id],
                        sent_alerts := record_emission alert_id now st.sent_alerts }
            | .failed =>
              { st with alert_history := hist }
      else st

/-- `add_to_blacklist`: a no-op when the symbol is already blacklisted;
otherwise add it to `blacklist` and remove it from `tracked_symbols` and
`paused_alerts`.  `sent_alerts` and `alert_history` are not touched. -/
def add_to_blacklist (st : ScanState) (symbol : String) : ScanState :=
  if symbol ∈ st.blacklist then st
  else
    { st with blacklist := insert symbol st.blacklist,
              tracked := st.tracked.erase symbol,
              paused_alerts := st.paused_alerts.erase symbol }

/-- The digits of the zero-padded 2-digit decimal form of `n` (valid for
`n < 100`), as Python `str(n).zfill(2)` produces them. -/
def pad2 (n : ℕ) : List ℕ :=
  [n / 10 % 10, n % 10]

/-- The digits of the zero-padded 4-digit decimal form of `n` (valid for
`n < 10000`), as `strftime` renders the year. -/
def pad4 (n : ℕ) : List ℕ :=
  [n / 1000 % 10, n / 100 % 10, n / 10 % 10, n % 10]

/-- The bucket key of scanner line 498:
`datetime.now().strftime("%Y%m%d%H%M")[:11] + str(int(minute/5)*5).zfill(2)`.
`strftime` yields the 12 fixed-width digits `YYYYMMDDHHMM`; taking `[:11]`
keeps everything through the tens digit of the minute, and the appended part
is the minute floored to a multiple of 5, zero-padded to width 2.  The key is
modelled as that digit list. -/
def current_5min (y mo d h m : ℕ) : List ℕ :=
  pad4 y ++ pad2 mo ++ pad2 d ++ pad2 h ++ [m / 10] ++ pad2 (m / 5 * 5)

/-- What `volume_spike_scanner` does on entry (lines 490-492): with an empty
tracked set it logs and returns, never entering the scan loop. -/
inductive ScannerInit : Type
  | exitNoPairs
  | enterLoop
deriving DecidableEq, Repr

/-- Entry decision of `volume_spike_scanner`. -/
def volume_spike_scanner_init (st : ScanState) : ScannerInit :=
  if st.tracked = ∅ then ScannerInit.exitNoPairs else ScannerInit.enterLoop

/-- What one loop iteration does first (scanner lines 505-514): every 432nd
iteration refreshes the symbol list; otherwise an empty tracked set makes the
iteration sleep 60 seconds and continue; otherwise the tick scans. -/
inductive TickAction : Type
  | refreshSymbols
  | idleSleep
  | scanPass
deriving DecidableEq, Repr

/-- Dispatch at the top of a scan-loop iteration. -/
def tick_action (iteration : ℕ) (st : ScanState) : TickAction :=
  if iteration % 432 = 0 then TickAction.refreshSymbols
  else if st.tracked = ∅ then TickAction.idleSleep
  else TickAction.scanPass

/-- `load_and_filter_symbols`: when the instrument listing comes back empty
(the market-data client returns `[]` on every HTTP or payload error), return
`False` before touching `tracked_symbols`; otherwise apply the stock filter
and the per-symbol checks and replace `tracked_symbols` wholesale.  `env`
gives each symbol's fetched daily volume and kline data.  The second result
is the returned success flag; the third records whether the startup
notification was sent (the source only sends it under `if tracked_symbols:`,
i.e. when the new set is non-empty). -/
def load_and_filter_symbols (st : ScanState) (all_symbols : List String)
    (env : String → ℚ × Option KlineData) : ScanState × Bool × Bool :=
  if all_symbols.isEmpty then (st, false, false)
  else
    let filtered := filter_stock_symbols all_symbols
    let low := filtered.filter
      (fun s => check_symbol_conditions st.blacklist s (env s).1 (env s).2)
    ({ st with tracked := low.toFinset }, true, !low.isEmpty)

/-! Concrete data used by the scenario theorems and the witnesses. -/

/-- A per-symbol fetch environment returning daily volume 0 and no kline
data for every symbol. -/
def env0 : String → ℚ × Option KlineData := fun _ => (0, none)

/-- Bucket key of the window 12:00-12:04 of 2025-10-12. -/
def bucketA : List ℕ := current_5min 2025 10 12 12 2

/-- Bucket key of the window 12:05-12:09 of 2025-10-12. -/
def bucketB : List ℕ := current_5min 2025 10 12 12 7

/-- A candle pair that fires the spike test at the source thresholds
1000/4000. -/
def kline_spike : KlineData := ⟨500, 4500, 1, 1⟩

/-- Tick-1 candle pair of the C2 scenario: prev=500, curr=2500. -/
def kline_c2_t1 : KlineData := ⟨500, 2500, 1, 1⟩

/-- Tick-3 candle pair of the C2 scenario: prev=2500, curr=100. -/
def kline_c2_t3 : KlineData := ⟨2500, 100, 1, 1⟩

/-- Fresh scanner state tracking exactly the symbol `AUSDT`. -/
def st_ausdt : ScanState := ⟨{"AUSDT"}, [], ∅, ∅, [], []⟩

/-- C2 scenario after tick 1 (thresholds 1000/2000, bucket `bucketA`,
delivery succeeds). -/
def st_c2_t1 : ScanState :=
  process_symbol 1000 2000 100 bucketA st_ausdt "AUSDT" (some kline_c2_t1)
    DeliveryOutcome.delivered

/-- C2 scenario after tick 2: identical inputs in the same bucket. -/
def st_c2_t2 : ScanState :=
  process_symbol 1000 2000 150 bucketA st_c2_t1 "AUSDT" (some kline_c2_t1)
    DeliveryOutcome.delivered

/-- C2 scenario after tick 3: next bucket, prev=2500, curr=100. -/
def st_c2_t3 : ScanState :=
  process_symbol 1000 2000 400 bucketB st_c2_t2 "AUSDT" (some kline_c2_t3)
    DeliveryOutcome.delivered

/-- C3 scenario: a spiking symbol whose primary and fallback deliveries both
fail. -/
def st_c3_fail : ScanState :=
  process_symbol 1000 4000 10 bucketA st_ausdt "AUSDT" (some kline_spike)
    DeliveryOutcome.failed

/-- C4 scenario: `AUSDT` is tracked and has a dedup entry from bucket
`bucketA`. -/
def st_c4 : ScanState := ⟨{"AUSDT"}, [(("AUSDT", bucketA), 5)], ∅, ∅, [], []⟩

/-- C4 scenario after the blacklist command. -/
def st_c4_after : ScanState := add_to_blacklist st_c4 "AUSDT"

/-- C8 scenario: a populated universe about to be refreshed from a listing
containing only a stock symbol. -/
def st_c8 : ScanState := ⟨{"BUSDT"}, [], ∅, ∅, [], []⟩

/-- A scanner state with an empty tracked set. -/
def st_empty : ScanState := ⟨∅, [], ∅, ∅, [], []⟩

/-! Helper lemmas about the dedup store and the scan step. -/

theorem lookupSent_record_self (k : AlertKey) (t : ℕ)
    (sent : List (AlertKey × ℕ)) :
    lookupSent k (record_emission k t sent) = some t := by
  simp [record_emission, lookupSent]

theorem lookupSent_record_other {k k' : AlertKey} (h : k ≠ k') (t : ℕ)
    (sent : List (AlertKey × ℕ)) :
    lookupSent k (record_emission k' t sent) = lookupSent k sent := by
  simp [record_emission, lookupSent, h]

theorem lookupSent_filter_none {k : AlertKey} {sent : List (AlertKey × ℕ)}
    (p : AlertKey × ℕ → Bool) (h : lookupSent k sent = none) :
    lookupSent k (sent.filter p) = none := by
  induction sent with
  | nil => simp [lookupSent]
  | cons kv rest ih =>
    obtain ⟨k', v⟩ := kv
    by_cases hk : k = k'
    · simp [lookupSent, hk] at h
    · have h' : lookupSent k rest = none := by
        simpa [lookupSent, hk] using h
      by_cases hp : p (k', v) = true
      · simpa [List.filter_cons, hp, lookupSent, hk] using ih h'
      · simpa [List.filter_cons, hp] using ih h'

theorem process_symbol_delivered_other {s X : String} (hne : s ≠ X)
    (minPrev minCurr now : ℕ) (bucket : List ℕ) (st : ScanState)
    (kline : Option KlineData) (oc : DeliveryOutcome) (b : List ℕ) :
    ((X, b) ∈ (process_symbol minPrev minCurr now bucket st s kline oc).delivered
      ↔ (X, b) ∈ st.delivered) := by
  have hXs : ¬ (X = s ∧ b = bucket) := fun hc => hne hc.1.symm
  cases kline with
  | none =>
    by_cases hpp : s ∈ st.paused_alerts <;> simp [process_symbol, hpp]
  | some d =>
    by_cases hpp : s ∈ st.paused_alerts
    · simp [process_symbol, hpp]
    · by_cases hsp :
        spike_condition minPrev minCurr d.prev_volume d.curr_volume = true
      · by_cases hlk : (lookupSent (s, bucket) st.sent_alerts).isSome = true
        · simp [process_symbol, hpp, hsp, hlk]
        · cases oc <;>
            simp [process_symbol, hpp, hsp, hlk, Prod.mk.injEq, hXs]
      · simp [process_symbol, hpp, hsp]

theorem process_symbols_delivered_other {X : String} (minPrev minCurr now : ℕ)
    (bucket : List ℕ)
    (inputs : List (String × Option KlineData × DeliveryOutcome))
    (hX : ∀ e ∈ inputs, (e : String × Option KlineData × DeliveryOutcome).1 ≠ X)
    (st : ScanState) (b : List ℕ) :
    ((X, b) ∈ (process_symbols minPrev minCurr now bucket st inputs).delivered
      ↔ (X, b) ∈ st.delivered) := by
  induction inputs generalizing st with
  | nil => simp [process_symbols]
  | cons e rest ih =>
    obtain ⟨s, kl, oc⟩ := e
    have hs : s ≠ X := hX _ (List.mem_cons_self _ _)
    have hrest : ∀ e ∈ rest,
        (e : String × Option KlineData × DeliveryOutcome).1 ≠ X :=
      fun e he => hX e (List.mem_cons_of_mem _ he)
    rw [process_symbols, ih hrest]
    exact process_symbol_delivered_other hs minPrev minCurr now bucket st kl oc b

/-! Claim theorems. -/

/-- C1: at the source thresholds (`MIN_PREV_VOLUME = 1000`,
`MIN_CURRENT_VOLUME = 4000`) the spike test fires exactly when
`prevVol < 1000`, `currVol > 4000` and the relative volume growth — computed
by the source's own formula `(curr - prev) / max(prev, 1)` — is at least 50%.
The code only tests the two volume comparisons; at these thresholds they force
the growth bound, so the biconditional holds: in particular no evaluated pair
failing the growth condition is flagged. -/
theorem C1_spike_predicate (prev_vol curr_vol : ℕ) :
    spike_condition MIN_PREV_VOLUME MIN_CURRENT_VOLUME prev_vol curr_vol = true
      ↔ prev_vol < MIN_PREV_VOLUME ∧ MIN_CURRENT_VOLUME < curr_vol
          ∧ 50 ≤ volume_change_pct prev_vol curr_vol := by
  unfold spike_condition MIN_PREV_VOLUME MIN_CURRENT_VOLUME
  simp only [Bool.and_eq_true, decide_eq_true_eq]
  constructor
  · rintro ⟨h1, h2⟩
    refine ⟨h1, h2, ?_⟩
    unfold volume_change_pct
    have hm1 : (0 : ℚ) < max (prev_vol : ℚ) 1 :=
      lt_of_lt_of_le one_pos (le_max_right _ _)
    rw [div_mul_eq_mul_div, le_div_iff₀ hm1]
    have hp : (prev_vol : ℚ) ≤ 999 := by exact_mod_cast Nat.lt_succ_iff.mp h1
    have hc : (4001 : ℚ) ≤ (curr_vol : ℚ) := by exact_mod_cast h2
    have hmax : max (prev_vol : ℚ) 1 ≤ 999 := max_le hp (by norm_num)
    nlinarith
  · rintro ⟨h1, h2, _⟩
    exact ⟨h1, h2⟩

/-- C9: the price-change computation is total and guarded: a zero previous
close yields exactly 0, and a positive previous close yields
`(curr - prev) / prev * 100`. -/
theorem C9_zero_division_guard (prev_price curr_price : ℚ) :
    (prev_price = 0 → price_change_pct prev_price curr_price = 0)
      ∧ (0 < prev_price →
          price_change_pct prev_price curr_price
            = ((curr_price - prev_price) / prev_price) * 100) := by
  constructor
  · intro h
    simp [price_change_pct, h]
  · intro h
    simp [price_change_pct, h]

/-- Witness for C9 at previous close 0 and at previous close 2 with current
close 3. -/
theorem C9_zero_division_guard_witness :
    price_change_pct 0 5 = 0 ∧ price_change_pct 2 3 = ((3 - 2) / 2) * 100 :=
  ⟨(C9_zero_division_guard 0 5).1 rfl,
   (C9_zero_division_guard 2 3).2 (by norm_num)⟩

/-- C10: a symbol that passes the blacklist, stock-symbol, keyword, digit and
daily-volume checks is accepted when the 5-minute kline fetch returns no data:
the price-band filter is skipped and absence of candle data never excludes a
symbol. -/
theorem C10_no_kline_data_accepts (blacklist : Finset String) (symbol : String)
    (daily_volume : ℚ)
    (h1 : symbol ∉ blacklist)
    (h2 : STOCK_SYMBOLS.contains (clean_symbol symbol) = false)
    (h3 : STOCK_KEYWORDS.any (fun k => strContains (str_upper symbol) k) = false)
    (h4 : (clean_symbol symbol).data.any Char.isDigit = false)
    (h5 : ¬ DAILY_VOLUME_LIMIT < daily_volume) :
    check_symbol_conditions blacklist symbol daily_volume none = true := by
  have h2' : clean_symbol symbol ∉ STOCK_SYMBOLS := by simpa using h2
  simp [check_symbol_conditions, h1, h2', h3, h4, h5]

/-- Witness for C10 at the concrete symbol `AUSDT` with daily volume 0 and no
kline data. -/
theorem C10_no_kline_data_accepts_witness :
    check_symbol_conditions ∅ "AUSDT" 0 none = true :=
  C10_no_kline_data_accepts ∅ "AUSDT" 0 (by decide) (by decide) (by decide)
    (by decide) (by norm_num [DAILY_VOLUME_LIMIT])

/-- C2: the spec scenario with universe `(AUSDT)` and the configured
thresholds instantiated at `V_low = 1000`, `V_high = 2000`.  The claim (and
the code's own intent, per its docstrings and success logging) is that tick 1
(prev=500, curr=2500) emits exactly one alert and records it to history and
to the dedup store — and the intended logic does exactly that, as the last
five conjuncts show on `process_symbol` (tick 2 in the same bucket is
dedup-suppressed, tick 3 fails `prevVol < V_low`).  But as the code actually
runs, `save_alert_to_history` raises `UnboundLocalError` on every call (its
body assigns `alert_history` without a `global` declaration), the per-symbol
`except` swallows the exception, and tick 1 leaves the whole scanner state
unchanged: nothing is emitted, nothing is recorded — the first four
conjuncts, on `process_symbol_run`. -/
theorem C2_scenario_code_bug :
    process_symbol_run 1000 2000 100 bucketA st_ausdt "AUSDT"
        (some kline_c2_t1) DeliveryOutcome.delivered = st_ausdt
    ∧ st_ausdt.delivered = []
    ∧ st_ausdt.alert_history = []
    ∧ st_ausdt.sent_alerts = []
    ∧ st_c2_t1.delivered = [("AUSDT", bucketA)]
    ∧ st_c2_t1.alert_history.length = 1
    ∧ lookupSent ("AUSDT", bucketA) st_c2_t1.sent_alerts = some 100
    ∧ st_c2_t2 = st_c2_t1
    ∧ st_c2_t3 = st_c2_t2 :=
  ⟨rfl, rfl, rfl, rfl, rfl, rfl, rfl, rfl, rfl⟩

/-- C5: refresh atomicity.  When the instrument listing fails (the market
data client yields no symbols), `load_and_filter_symbols` leaves the tracked
universe exactly as it was and reports failure; when the listing succeeds the
tracked set is replaced wholesale by the filtered result. -/
theorem C5_refresh_atomicity (st : ScanState)
    (env : String → ℚ × Option KlineData) :
    (load_and_filter_symbols st [] env).1.tracked = st.tracked
    ∧ (load_and_filter_symbols st [] env).2.1 = false
    ∧ ∀ syms : List String, syms ≠ [] →
        (load_and_filter_symbols st syms env).1.tracked
          = ((filter_stock_symbols syms).filter
              (fun s =>
                check_symbol_conditions st.blacklist s (env s).1 (env s).2)).toFinset := by
  refine ⟨rfl, rfl, ?_⟩
  intro syms hs
  cases syms with
  | nil => exact absurd rfl hs
  | cons a t => rfl

/-- Witness for C5 with the fresh state `st_ausdt`, the trivial fetch
environment and the one-element listing `(CUSDT)`. -/
theorem C5_refresh_atomicity_witness :
    (load_and_filter_symbols st_ausdt [] env0).1.tracked = st_ausdt.tracked
    ∧ (["CUSDT"] : List String) ≠ []
    ∧ (load_and_filter_symbols st_ausdt ["CUSDT"] env0).1.tracked
        = ((filter_stock_symbols ["CUSDT"]).filter
            (fun s =>
              check_symbol_conditions st_ausdt.blacklist s (env0 s).1
                (env0 s).2)).toFinset :=
  ⟨(C5_refresh_atomicity st_ausdt env0).1, by decide,
   (C5_refresh_atomicity st_ausdt env0).2.2 ["CUSDT"] (by decide)⟩

/-- C6: dedup lifecycle for a pair `(instrument, bucketKey)`: the query is
true before an emission is recorded and false after, it stays false under
recordings for other pairs and under sweeps within the 7200-second retention
bound, and it becomes true again once a sweep runs after the retention bound
has passed. -/
theorem C6_dedup_idempotence (sent : List (AlertKey × ℕ)) (k k2 : AlertKey)
    (t0 v2 t1 t2 : ℕ)
    (h0 : lookupSent k sent = none) (hk : k2 ≠ k)
    (h1 : t1 - t0 ≤ 7200) (h2 : 7200 < t2 - t0) :
    shouldEmitDedup sent k = true
    ∧ shouldEmitDedup (record_emission k t0 sent) k = false
    ∧ shouldEmitDedup (record_emission k2 v2 (record_emission k t0 sent)) k
        = false
    ∧ shouldEmitDedup (sweep_old_alerts t1 (record_emission k t0 sent)) k
        = false
    ∧ shouldEmitDedup (sweep_old_alerts t2 (record_emission k t0 sent)) k
        = true := by
  refine ⟨?_, ?_, ?_, ?_, ?_⟩
  · simp [shouldEmitDedup, h0]
  · simp [shouldEmitDedup, lookupSent_record_self]
  · simp [shouldEmitDedup, lookupSent_record_other hk.symm,
      lookupSent_record_self]
  · have hstep :
        List.filter (fun kv => !(decide (7200 < t1 - kv.2)))
            ((k, t0) :: sent)
          = (k, t0) :: List.filter (fun kv => !(decide (7200 < t1 - kv.2))) sent := by
      rw [List.filter_cons_of_pos]
      simp [Nat.not_lt.mpr h1]
    simp only [shouldEmitDedup, sweep_old_alerts, record_emission, hstep]
    simp [lookupSent]
  · have hstep :
        List.filter (fun kv => !(decide (7200 < t2 - kv.2)))
            ((k, t0) :: sent)
          = List.filter (fun kv => !(decide (7200 < t2 - kv.2))) sent := by
      rw [List.filter_cons_of_neg]
      simp [h2]
    simp only [shouldEmitDedup, sweep_old_alerts, record_emission, hstep]
    have hnone := lookupSent_filter_none
      (fun kv => !(decide (7200 < t2 - kv.2))) h0
    simp [hnone]

/-- Witness for C6: empty store, pair `(AUSDT, bucketA)` recorded at time 0,
an unrelated pair `(BUSDT, bucketA)`, a sweep at 7200 and a sweep at 7201. -/
theorem C6_dedup_idempotence_witness :
    shouldEmitDedup [] ("AUSDT", bucketA) = true
    ∧ shouldEmitDedup (record_emission ("AUSDT", bucketA) 0 []) ("AUSDT", bucketA)
        = false
    ∧ shouldEmitDedup
        (record_emission ("BUSDT", bucketA) 3
          (record_emission ("AUSDT", bucketA) 0 [])) ("AUSDT", bucketA) = false
    ∧ shouldEmitDedup
        (sweep_old_alerts 7200 (record_emission ("AUSDT", bucketA) 0 []))
        ("AUSDT", bucketA) = false
    ∧ shouldEmitDedup
        (sweep_old_alerts 7201 (record_emission ("AUSDT", bucketA) 0 []))
        ("AUSDT", bucketA) = true :=
  C6_dedup_idempotence [] ("AUSDT", bucketA) ("BUSDT", bucketA) 0 3 7200 7201
    (by decide) (by decide) (by decide) (by decide)

/-- C7: the bucket key is constant on each 5-minute window, two different
windows always produce different keys (for calendar-valid field ranges), and
an emission recorded under one bucket key never suppresses the dedup query
under a different bucket key. -/
theorem C7_bucket_rollover (y mo d h m1 m2 y' mo' d' h' : ℕ)
    (sent : List (AlertKey × ℕ)) (sym : String) (b b' : List ℕ) (t : ℕ) :
    (m1 / 5 = m2 / 5 → current_5min y mo d h m1 = current_5min y mo d h m2)
    ∧ (y < 10000 → mo < 100 → d < 100 → h < 100 → m1 < 60 → m2 < 60 →
        y' < 10000 → mo' < 100 → d' < 100 → h' < 100 →
        current_5min y mo d h m1 = current_5min y' mo' d' h' m2 →
        y = y' ∧ mo = mo' ∧ d = d' ∧ h = h' ∧ m1 / 5 = m2 / 5)
    ∧ (b ≠ b' →
        shouldEmitDedup (record_emission (sym, b') t sent) (sym, b)
          = shouldEmitDedup sent (sym, b)) := by
  refine ⟨?_, ?_, ?_⟩
  · intro he
    have h10 : m1 / 10 = m2 / 10 := by
      have a1 : m1 / 5 / 2 = m1 / 10 := by rw [Nat.div_div_eq_div_mul]
      have a2 : m2 / 5 / 2 = m2 / 10 := by rw [Nat.div_div_eq_div_mul]
      rw [← a1, ← a2, he]
    simp [current_5min, pad4, pad2, he, h10]
  · intro hy hmo hd hh hm1 hm2 hy' hmo' hd' hh' heq
    simp only [current_5min, pad4, pad2, List.cons_append, List.nil_append,
      List.cons.injEq, and_true] at heq
    refine ⟨by omega, by omega, by omega, by omega, by omega⟩
  · intro hb
    have hne : (sym, b) ≠ (sym, b') := by
      simp [Prod.ext_iff, hb]
    simp [shouldEmitDedup, lookupSent_record_other hne]

/-- Witness for C7: minutes 7 and 9 share the 12:05 window (equal keys),
minute-7 and minute-9 keys agree so the injectivity direction applies with
its range bounds, and recording `(AUSDT, bucketB)` leaves the query for
`(AUSDT, bucketA)` unchanged. -/
theorem C7_bucket_rollover_witness :
    current_5min 2025 10 12 12 7 = current_5min 2025 10 12 12 9
    ∧ (2025 = 2025 ∧ 10 = 10 ∧ 12 = 12 ∧ 12 = 12 ∧ 7 / 5 = 9 / 5)
    ∧ shouldEmitDedup (record_emission ("AUSDT", bucketB) 0 []) ("AUSDT", bucketA)
        = shouldEmitDedup [] ("AUSDT", bucketA) := by
  have T := C7_bucket_rollover 2025 10 12 12 7 9 2025 10 12 12 [] "AUSDT"
    bucketA bucketB 0
  have h1 := T.1 (by decide)
  exact ⟨h1,
    T.2.1 (by decide) (by decide) (by decide) (by decide) (by decide)
      (by decide) (by decide) (by decide) (by decide) (by decide) h1,
    T.2.2 (by decide)⟩

/-- C3 counterexample: the claim says every candidate alert whose delivery
fails is still recorded as attempted in the dedup store and is not
re-attempted in the same bucket.  In the code the dedup entry is written only
after a *successful* send: when the primary send and the simplified fallback
both fail, nothing is recorded, and the very next pass over the same symbol
in the same bucket re-attempts and delivers the alert again. -/
theorem C3_counterexample :
    lookupSent ("AUSDT", bucketA) st_c3_fail.sent_alerts = none
    ∧ (process_symbol 1000 4000 60 bucketA st_c3_fail "AUSDT"
        (some kline_spike) DeliveryOutcome.failed).alert_history.length = 2
    ∧ (process_symbol 1000 4000 60 bucketA st_c3_fail "AUSDT"
        (some kline_spike) DeliveryOutcome.delivered).delivered
        = [("AUSDT", bucketA)] :=
  ⟨rfl, rfl, rfl⟩

/-- C3 amended: an alert whose primary delivery fails is recorded as
attempted exactly when the simplified fallback delivery succeeds — in that
case the same `(instrument, bucketKey)` pair is not re-attempted in the same
bucket; when both the primary and the fallback delivery fail the pair is not
recorded (and may be re-attempted in the same bucket); in every case the scan
loop continues with the remaining symbols. -/
theorem C3_amended (minPrev minCurr now now2 : ℕ) (bucket : List ℕ)
    (st : ScanState) (s : String) (d : KlineData) (oc2 : DeliveryOutcome)
    (hp : s ∉ st.paused_alerts)
    (hs : spike_condition minPrev minCurr d.prev_volume d.curr_volume = true)
    (hd : lookupSent (s, bucket) st.sent_alerts = none) :
    lookupSent (s, bucket)
        (process_symbol minPrev minCurr now bucket st s (some d)
          DeliveryOutcome.fallbackDelivered).sent_alerts = some now
    ∧ process_symbol minPrev minCurr now2 bucket
        (process_symbol minPrev minCurr now bucket st s (some d)
          DeliveryOutcome.fallbackDelivered) s (some d) oc2
        = process_symbol minPrev minCurr now bucket st s (some d)
            DeliveryOutcome.fallbackDelivered
    ∧ (process_symbol minPrev minCurr now bucket st s (some d)
        DeliveryOutcome.failed).sent_alerts = st.sent_alerts
    ∧ ∀ rest, process_symbols minPrev minCurr now bucket st
        ((s, some d, DeliveryOutcome.failed) :: rest)
        = process_symbols minPrev minCurr now bucket
            (process_symbol minPrev minCurr now bucket st s (some d)
              DeliveryOutcome.failed) rest := by
  have hd' : (lookupSent (s, bucket) st.sent_alerts).isSome = false := by
    simp [hd]
  refine ⟨?_, ?_, ?_, fun rest => rfl⟩
  · simp [process_symbol, hp, hs, hd', lookupSent_record_self]
  · have hst1 : (process_symbol minPrev minCurr now bucket st s (some d)
        DeliveryOutcome.fallbackDelivered).paused_alerts = st.paused_alerts := by
      simp [process_symbol, hp, hs, hd']
    have hst2 : lookupSent (s, bucket)
        (process_symbol minPrev minCurr now bucket st s (some d)
          DeliveryOutcome.fallbackDelivered).sent_alerts = some now := by
      simp [process_symbol, hp, hs, hd', lookupSent_record_self]
    rw [process_symbol, if_neg (hst1 ▸ hp)]
    rw [if_pos hs, if_pos (by simp [hst2])]
  · simp [process_symbol, hp, hs, hd']

/-- Witness for C3 amended: fresh state, symbol `AUSDT`, spiking candles,
thresholds 1000/4000, bucket `bucketA`. -/
theorem C3_amended_witness :
    lookupSent ("AUSDT", bucketA)
        (process_symbol 1000 4000 10 bucketA st_ausdt "AUSDT"
          (some kline_spike) DeliveryOutcome.fallbackDelivered).sent_alerts
        = some 10
    ∧ (process_symbol 1000 4000 10 bucketA st_ausdt "AUSDT"
        (some kline_spike) DeliveryOutcome.failed).sent_alerts
        = st_ausdt.sent_alerts :=
  ⟨(C3_amended 1000 4000 10 20 bucketA st_ausdt "AUSDT" kline_spike
      DeliveryOutcome.delivered (by decide) (by decide) (by decide)).1,
   (C3_amended 1000 4000 10 20 bucketA st_ausdt "AUSDT" kline_spike
      DeliveryOutcome.delivered (by decide) (by decide) (by decide)).2.2.1⟩

/-- C4 counterexample: the claim says `blacklist(X)` clears any dedup-store
entries for `X` and prevents any further alert for `X` in the current tick.
In the code `add_to_blacklist` never touches `sent_alerts` — the dedup entry
recorded at time 5 survives the command — and the per-symbol loop of the
running tick iterates a snapshot taken at tick start without re-checking the
blacklist, so a spike for `X` later in the same tick is still delivered. -/
theorem C4_counterexample :
    lookupSent ("AUSDT", bucketA) st_c4_after.sent_alerts = some 5
    ∧ (process_symbol 1000 4000 6 bucketB st_c4_after "AUSDT"
        (some kline_spike) DeliveryOutcome.delivered).delivered
        = [("AUSDT", bucketB)] :=
  ⟨rfl, rfl⟩

/-- C4 amended: after `blacklist(X)` completes (for an `X` not already
blacklisted), `X` is immediately out of the tracked universe and out of the
pause list and is in the blacklist, the dedup store is left untouched
(entries for `X` are retained, not cleared), and no alert for `X` is
delivered by any pass whose snapshot no longer contains `X` — i.e. from the
next tick on; a snapshot taken before the command may still alert on `X`
during the current tick. -/
theorem C4_amended (st : ScanState) (X : String) (hb : X ∉ st.blacklist) :
    X ∉ (add_to_blacklist st X).tracked
    ∧ X ∉ (add_to_blacklist st X).paused_alerts
    ∧ X ∈ (add_to_blacklist st X).blacklist
    ∧ (add_to_blacklist st X).sent_alerts = st.sent_alerts
    ∧ ∀ (minPrev minCurr now : ℕ) (bucket : List ℕ)
        (inputs : List (String × Option KlineData × DeliveryOutcome)),
        (∀ e ∈ inputs,
          (e : String × Option KlineData × DeliveryOutcome).1 ≠ X) →
        ∀ b : List ℕ,
          ((X, b) ∈ (process_symbols minPrev minCurr now bucket
              (add_to_blacklist st X) inputs).delivered
            ↔ (X, b) ∈ (add_to_blacklist st X).delivered) := by
  refine ⟨?_, ?_, ?_, ?_, ?_⟩
  · simp [add_to_blacklist, hb, Finset.not_mem_erase]
  · simp [add_to_blacklist, hb, Finset.not_mem_erase]
  · simp [add_to_blacklist, hb]
  · simp [add_to_blacklist, hb]
  · intro minPrev minCurr now bucket inputs hX b
    exact process_symbols_delivered_other minPrev minCurr now bucket inputs hX
      (add_to_blacklist st X) b

/-- Witness for C4 amended: the state `st_c4` (where `AUSDT` is tracked and
has a dedup entry), blacklisting `AUSDT`, and a next-tick snapshot containing
only `BUSDT`. -/
theorem C4_amended_witness :
    "AUSDT" ∉ (add_to_blacklist st_c4 "AUSDT").tracked
    ∧ "AUSDT" ∉ (add_to_blacklist st_c4 "AUSDT").paused_alerts
    ∧ "AUSDT" ∈ (add_to_blacklist st_c4 "AUSDT").blacklist
    ∧ (add_to_blacklist st_c4 "AUSDT").sent_alerts = st_c4.sent_alerts
    ∧ (("AUSDT", bucketB) ∈ (process_symbols 1000 4000 6 bucketB
          (add_to_blacklist st_c4 "AUSDT")
          [("BUSDT", some kline_spike, DeliveryOutcome.delivered)]).delivered
        ↔ ("AUSDT", bucketB) ∈ (add_to_blacklist st_c4 "AUSDT").delivered) := by
  have T := C4_amended st_c4 "AUSDT" (by decide)
  exact ⟨T.1, T.2.1, T.2.2.1, T.2.2.2.1,
    T.2.2.2.2 1000 4000 6 bucketB
      [("BUSDT", some kline_spike, DeliveryOutcome.delivered)]
      (by decide) bucketB⟩

/-- C8 counterexample: the claim says an empty filtered universe is surfaced
to the operator via a notification and that scanning continues idling.  In
the code the startup message is sent only under `if tracked_symbols:`, i.e.
only when the filtered set is NON-empty — an empty result is only logged —
and `volume_spike_scanner` returns immediately when the tracked set is empty
at scanner start instead of idling.  Here a successful listing containing
only the stock symbol `AAPLUSDT` filters down to the empty set: no
notification is sent, the populated universe is replaced by the empty set,
and the scanner task exits. -/
theorem C8_counterexample :
    (load_and_filter_symbols st_c8 ["AAPLUSDT"] env0).2.2 = false
    ∧ (load_and_filter_symbols st_c8 ["AAPLUSDT"] env0).1.tracked = ∅
    ∧ volume_spike_scanner_init (load_and_filter_symbols st_c8 ["AAPLUSDT"] env0).1
        = ScannerInit.exitNoPairs := by
  refine ⟨rfl, ?_, ?_⟩ <;> decide

/-- C8 amended: when universe filtering yields the empty set no operator
notification is sent (the startup message is only sent for a non-empty
result); if the tracked set is empty when the scanner task starts, the task
returns instead of running idle; if the tracked set is empty during the
running loop, the iteration sleeps and continues, and the periodic refresh
still happens on its normal 432-iteration schedule. -/
theorem C8_amended (st : ScanState) (env : String → ℚ × Option KlineData)
    (syms : List String) (i : ℕ) :
    (syms ≠ [] →
      (load_and_filter_symbols st syms env).1.tracked = ∅ →
      (load_and_filter_symbols st syms env).2.2 = false)
    ∧ (st.tracked = ∅ → volume_spike_scanner_init st = ScannerInit.exitNoPairs)
    ∧ (i % 432 ≠ 0 → st.tracked = ∅ → tick_action i st = TickAction.idleSleep)
    ∧ (i % 432 = 0 → tick_action i st = TickAction.refreshSymbols) := by
  refine ⟨?_, ?_, ?_, ?_⟩
  · intro hs htr
    cases syms with
    | nil => exact absurd rfl hs
    | cons a t =>
      have htr' : ((filter_stock_symbols (a :: t)).filter
          (fun s =>
            check_symbol_conditions st.blacklist s (env s).1 (env s).2)).toFinset
          = ∅ := htr
      have hlow : ((filter_stock_symbols (a :: t)).filter
          (fun s =>
            check_symbol_conditions st.blacklist s (env s).1 (env s).2)) = [] :=
        (List.toFinset_eq_empty_iff _).mp htr'
      show (!((filter_stock_symbols (a :: t)).filter
          (fun s =>
            check_symbol_conditions st.blacklist s (env s).1 (env s).2)).isEmpty)
          = false
      rw [hlow]
      rfl
  · intro h
    simp [volume_spike_scanner_init, h]
  · intro h1 h2
    simp [tick_action, h1, h2]
  · intro h1
    simp [tick_action, h1]

/-- Witness for C8 amended: the concrete refresh of `C8_counterexample`, an
empty-universe scanner start, and iterations 1 (idle) and 432 (refresh). -/
theorem C8_amended_witness :
    (load_and_filter_symbols st_c8 ["AAPLUSDT"] env0).2.2 = false
    ∧ volume_spike_scanner_init st_empty = ScannerInit.exitNoPairs
    ∧ tick_action 1 st_empty = TickAction.idleSleep
    ∧ tick_action 432 st_c8 = TickAction.refreshSymbols :=
  ⟨(C8_amended st_c8 env0 ["AAPLUSDT"] 1).1 (by decide) (by decide),
   (C8_amended st_empty env0 [] 1).2.1 (by decide),
   (C8_amended st_empty env0 [] 1).2.2.1 (by decide) (by decide),
   (C8_amended st_c8 env0 [] 432).2.2.2 (by decide)⟩

/-- Witness for C1 at the concrete pair prev=500, curr=4500. -/
theorem C1_spike_predicate_witness :
    spike_condition MIN_PREV_VOLUME MIN_CURRENT_VOLUME 500 4500 = true
    ∧ (500 < MIN_PREV_VOLUME ∧ MIN_CURRENT_VOLUME < 4500
        ∧ 50 ≤ volume_change_pct 500 4500) :=
  ⟨by decide, (C1_spike_predicate 500 4500).mp (by decide)⟩
